import Mathlib

/-!
Shallow embedding of the authentication/session subsystem of the
travel-backend repository (src/src/auth/*, src/src/database/models/user.py).

Conventions of the embedding:
* time is an abstract Nat measured in minutes; `timedelta(minutes=m)` is `m`
  and `timedelta(days=d)` is `d * 1440`;
* a JWT is modelled structurally as the pair of its signing key and its
  claims; signature verification is equality of the key with the expected
  secret, exactly the observable behaviour of `jose.jwt.decode`;
* bcrypt (an external library) is modelled as a deterministic salted digest:
  `gensalt()` randomness becomes an explicit salt parameter, and the one-way
  key derivation is modelled injectively, which is the contract
  `checkpw(p, hashpw(p, s)) = True` relies on;
* the SQLAlchemy session is a pure state `DBState`; `commit` outcomes are an
  explicit Bool parameter (`true` = commit succeeds, `false` = the store
  raises `SQLAlchemyError`), and `rollback` returns the pre-call state;
* Python exceptions become the `AuthErr` inductive; a raw storage exception
  escaping is the `AuthErr.SQLAlchemyError` value, and the exception-class
  hierarchy (`BaseUserException` / `BaseSecurityException`) becomes the
  predicates `isUserException` / `isSecurityException`.
-/

/-- Exception values raised by the auth subsystem: the user-exception and
security-exception class hierarchies, plus the raw storage exception. -/
inductive AuthErr where
  | UserNotFoundException
  | UserAlreadyExistsException
  | UserCreateException
  | UserAreLoggedOutException
  | TokenExpiredError
  | InvalidTokenError
  | InvalidRefreshTokenError
  | SessionExpiredError
  | SQLAlchemyError
  deriving DecidableEq, Repr

/-- Membership in the `BaseUserException` class hierarchy
(src/src/auth/user_exceptions.py). -/
def AuthErr.isUserException : AuthErr → Bool
  | .UserNotFoundException => true
  | .UserAlreadyExistsException => true
  | .UserCreateException => true
  | .UserAreLoggedOutException => true
  | _ => false

/-- Membership in the `BaseSecurityException` class hierarchy
(src/src/auth/security/exceptions.py). -/
def AuthErr.isSecurityException : AuthErr → Bool
  | .TokenExpiredError => true
  | .InvalidTokenError => true
  | .InvalidRefreshTokenError => true
  | .SessionExpiredError => true
  | _ => false

/-- The configuration slice used by the auth subsystem
(src/src/config/settings.py). -/
structure Settings where
  ACCESS_KEY_TIMEDELTA_MINUTES : Nat
  REFRESH_TOKEN_DAYS : Nat
  SECRET_KEY_ACCESS : String
  SECRET_KEY_REFRESH : String
  deriving DecidableEq, Repr

/-- A bcrypt digest: the salt it embeds plus the key-derivation output,
modelled injectively (src/src/auth/security/password.py uses the external
bcrypt library; the model keeps exactly its observable contract). -/
structure BcryptDigest where
  salt : Nat
  deriv : String
  deriving DecidableEq, Repr

/-- Model of `bcrypt.hashpw`: a digest embedding the salt and the
derivation of the password under that salt. -/
def bcrypt_hashpw (password : String) (salt : Nat) : BcryptDigest :=
  ⟨salt, password⟩

/-- Model of `bcrypt.checkpw`: recompute the digest with the salt embedded
in the stored digest and compare. -/
def bcrypt_checkpw (password : String) (digest : BcryptDigest) : Bool :=
  decide (bcrypt_hashpw password digest.salt = digest)

/-- `hash_password` (src/src/auth/security/password.py): hash with a fresh
salt; `gensalt()` randomness is the explicit `salt` argument. -/
def hash_password (password : String) (salt : Nat) : BcryptDigest :=
  bcrypt_hashpw password salt

/-- `verify_password` (src/src/auth/security/password.py): check a plain
password against a digest. The source's ValueError/TypeError guard (return
False) is unreachable here because every `BcryptDigest` is well formed. -/
def verify_password (plain_password : String) (hashed_password : BcryptDigest) : Bool :=
  bcrypt_checkpw plain_password hashed_password

/-- JWT claims: `user_id` and `email` are optional (a token may lack them),
`exp` is always embedded by `_create_token`. -/
structure TokenPayload where
  user_id : Option Nat
  email : Option String
  exp : Nat
  deriving DecidableEq, Repr

/-- A signed JWT, modelled structurally: the signing key and the claims. -/
structure JWToken where
  key : String
  payload : TokenPayload
  deriving DecidableEq, Repr

/-- The claim dictionary built by `login_user` / `refresh_token`:
`{"user_id": ..., "email": ...}`. -/
structure TokenData where
  user_id : Nat
  email : String
  deriving DecidableEq, Repr

/-- `JWTAuthManager._create_token` (src/src/auth/security/token_manager.py):
copy the claims, add `exp = now + expires_delta`, sign with the given key. -/
def JWTAuthManager.create_token (data : TokenData) (secret_key : String)
    (now expires_delta : Nat) : JWToken :=
  ⟨secret_key, ⟨some data.user_id, some data.email, now + expires_delta⟩⟩

/-- `JWTAuthManager.create_access_token` with the explicit delta passed by
`login_user` / `refresh_token`: signs with the access secret. -/
def create_access_token (st : Settings) (data : TokenData) (now : Nat) : JWToken :=
  JWTAuthManager.create_token data st.SECRET_KEY_ACCESS now
    st.ACCESS_KEY_TIMEDELTA_MINUTES

/-- `JWTAuthManager.create_refresh_token` with the delta
`timedelta(days=REFRESH_TOKEN_DAYS)` passed by `login_user`. -/
def create_refresh_token (st : Settings) (data : TokenData) (now : Nat) : JWToken :=
  JWTAuthManager.create_token data st.SECRET_KEY_REFRESH now
    (st.REFRESH_TOKEN_DAYS * 1440)

/-- `jose.jwt.decode` as wrapped by the manager: wrong key is a signature
mismatch (`InvalidTokenError`), an embedded expiry in the past raises
`TokenExpiredError`, otherwise the claims are returned. -/
def jwt_decode (secret_key : String) (token : JWToken) (now : Nat) :
    Except AuthErr TokenPayload :=
  if token.key = secret_key then
    if token.payload.exp < now then .error .TokenExpiredError
    else .ok token.payload
  else .error .InvalidTokenError

/-- `JWTAuthManager.decode_access_token`: validate against the access secret. -/
def decode_access_token (st : Settings) (token : JWToken) (now : Nat) :
    Except AuthErr TokenPayload :=
  jwt_decode st.SECRET_KEY_ACCESS token now

/-- `JWTAuthManager.decode_refresh_token`: validate against the refresh secret. -/
def decode_refresh_token (st : Settings) (token : JWToken) (now : Nat) :
    Except AuthErr TokenPayload :=
  jwt_decode st.SECRET_KEY_REFRESH token now

/-- A row of the `users` table (src/src/database/models/user.py). -/
structure UserModel where
  id : Nat
  email : String
  hashed_password : BcryptDigest
  deriving DecidableEq, Repr

/-- `UserModel.create`: hash the raw password (salt explicit) and build the
row; the primary key is assigned by the store and is an explicit argument. -/
def UserModel.create (email raw_password : String) (salt id : Nat) : UserModel :=
  ⟨id, email, hash_password raw_password salt⟩

/-- `UserModel.check_password`: verify a password against the stored hash. -/
def UserModel.check_password (u : UserModel) (password : String) : Bool :=
  verify_password password u.hashed_password

/-- A row of the `refresh_tokens` table (src/src/database/models/user.py). -/
structure RefreshTokenModel where
  id : Nat
  token : JWToken
  expires_at : Nat
  user_id : Nat
  deriving DecidableEq, Repr

/-- `RefreshTokenModel.create`: sets `expires_at = now + REFRESH_TOKEN_DAYS`
from settings; the primary key is an explicit argument. -/
def RefreshTokenModel.create (st : Settings) (user_id : Nat) (token : JWToken)
    (now id : Nat) : RefreshTokenModel :=
  ⟨id, token, now + st.REFRESH_TOKEN_DAYS * 1440, user_id⟩

/-- The auth-relevant slice of the database: the `users` and
`refresh_tokens` tables. -/
structure DBState where
  users : List UserModel
  refresh_tokens : List RefreshTokenModel
  deriving DecidableEq, Repr

/-- SQLAlchemy `Result.scalar_one_or_none` applied to the rows matched by a
select: none, exactly one, or the `MultipleResultsFound` storage exception. -/
def scalar_one_or_none {α : Type} : List α → Except AuthErr (Option α)
  | [] => .ok none
  | [a] => .ok (some a)
  | _ => .error .SQLAlchemyError

/-- `_get_user_by_email` (src/src/auth/crud.py): select the user whose email
column equals the given string exactly. -/
def get_user_by_email (email : String) (s : DBState) :
    Except AuthErr (Option UserModel) :=
  scalar_one_or_none (s.users.filter (fun u => u.email == email))

/-- Pydantic request schema for registration, after validation: the email
validator has already run (src/src/auth/schemas.py `UserCreateSchema`). -/
structure UserCreateSchema where
  email : String
  password : String
  deriving DecidableEq, Repr

/-- Python `str.lower`, modelled executably over the character list. -/
def str_lower (s : String) : String := String.mk (s.data.map Char.toLower)

/-- The `validate_corporate_email` field validator of `UserCreateSchema`:
reject addresses containing "temporary-mail.com", otherwise lowercase. -/
def validate_corporate_email (v : String) : Except String String :=
  if List.IsInfix ("temporary-mail.com".toList) v.toList then
    .error "Temporary mails are not allowed"
  else .ok (str_lower v)

/-- Parsing a registration request: run the email validator and build the
schema. The password-strength validator is orthogonal to every claim here
and is modelled as accepting. Pydantic `EmailStr` is modelled as the
identity on the raw string (it preserves local-part letter case). -/
def UserCreateSchema.parse (email password : String) :
    Except String UserCreateSchema :=
  match validate_corporate_email email with
  | .error e => .error e
  | .ok e => .ok ⟨e, password⟩

/-- Pydantic request schema for login (src/src/auth/schemas.py
`LoginRequestSchema`): plain `EmailStr` and `str` fields, no validator and
no transformation of the email. -/
structure LoginRequestSchema where
  email : String
  password : String
  deriving DecidableEq, Repr

/-- Public account view returned by registration. -/
structure UserReadSchema where
  id : Nat
  email : String
  deriving DecidableEq, Repr

/-- Token pair returned by login. -/
structure LoginResponseSchema where
  access_token : JWToken
  refresh_token : JWToken
  token_type : String
  deriving DecidableEq, Repr

/-- Confirmation message returned by logout. -/
structure CommonResponseSchema where
  message : String
  deriving DecidableEq, Repr

/-- New access token returned by refresh. -/
structure RefreshTokenResponseSchema where
  access_token : JWToken
  deriving DecidableEq, Repr

/-- `create_new_user` (src/src/auth/crud.py): reject a duplicate email,
hash the password, insert the row, commit. On commit failure roll back and
raise `UserCreateException`. The fresh salt and the store-assigned primary
key are explicit arguments; `commit_ok` is the commit outcome. -/
def create_new_user (user_data : UserCreateSchema) (salt new_id : Nat)
    (commit_ok : Bool) (s : DBState) :
    Except AuthErr UserReadSchema × DBState :=
  match get_user_by_email user_data.email s with
  | .error e => (.error e, s)
  | .ok (some _) => (.error .UserAlreadyExistsException, s)
  | .ok none =>
    let user := UserModel.create user_data.email user_data.password salt new_id
    if commit_ok then
      (.ok ⟨user.id, user.email⟩, ⟨s.users ++ [user], s.refresh_tokens⟩)
    else (.error .UserCreateException, s)

/-- `login_user` (src/src/auth/crud.py): look the user up by the presented
email, check the password (both failures raise `UserNotFoundException`),
delete every refresh row of the user, issue the token pair, insert the new
refresh row, commit. On commit failure roll back (undoing the delete and
the insert) and raise `SessionExpiredError`. -/
def login_user (login_data : LoginRequestSchema) (st : Settings)
    (now new_token_id : Nat) (commit_ok : Bool) (s : DBState) :
    Except AuthErr LoginResponseSchema × DBState :=
  match get_user_by_email login_data.email s with
  | .error e => (.error e, s)
  | .ok none => (.error .UserNotFoundException, s)
  | .ok (some user) =>
    if user.check_password login_data.password then
      let token_data : TokenData := ⟨user.id, user.email⟩
      let access_token := create_access_token st token_data now
      let refresh_tok := create_refresh_token st token_data now
      let db_token := RefreshTokenModel.create st user.id refresh_tok now new_token_id
      if commit_ok then
        (.ok ⟨access_token, refresh_tok, "bearer"⟩,
          ⟨s.users,
           s.refresh_tokens.filter (fun r => r.user_id != user.id) ++ [db_token]⟩)
      else (.error .SessionExpiredError, s)
    else (.error .UserNotFoundException, s)

/-- `logout_user` (src/src/auth/crud.py): delete every refresh row of the
authenticated user and commit. On a storage exception roll back and
re-raise the raw `SQLAlchemyError` (the bare `raise`). -/
def logout_user (auth_user_id : Nat) (commit_ok : Bool) (s : DBState) :
    Except AuthErr CommonResponseSchema × DBState :=
  if commit_ok then
    (.ok ⟨"Successfully logged out from all devices"⟩,
      ⟨s.users, s.refresh_tokens.filter (fun r => r.user_id != auth_user_id)⟩)
  else (.error .SQLAlchemyError, s)

/-- `refresh_token` (src/src/auth/crud.py): select the stored row whose
token column equals the presented token exactly; absent row raises
`InvalidRefreshTokenError`; a row whose token fails codec validation is
deleted (committed) before raising `InvalidRefreshTokenError`; claims with
a falsy `user_id` or `email` raise `InvalidRefreshTokenError`; otherwise a
new access token is issued. `commit_ok` is the outcome of the commit in the
delete branch. -/
def refresh_token (tok : JWToken) (st : Settings) (now : Nat)
    (commit_ok : Bool) (s : DBState) :
    Except AuthErr RefreshTokenResponseSchema × DBState :=
  match scalar_one_or_none (s.refresh_tokens.filter (fun r => r.token == tok)) with
  | .error e => (.error e, s)
  | .ok none => (.error .InvalidRefreshTokenError, s)
  | .ok (some db_token) =>
    match decode_refresh_token st tok now with
    | .error _ =>
      if commit_ok then
        (.error .InvalidRefreshTokenError,
          ⟨s.users, s.refresh_tokens.filter (fun r => r.id != db_token.id)⟩)
      else (.error .SQLAlchemyError, s)
    | .ok payload =>
      match payload.user_id, payload.email with
      | some user_id, some email =>
        if user_id == 0 || email == "" then (.error .InvalidRefreshTokenError, s)
        else (.ok ⟨create_access_token st ⟨user_id, email⟩ now⟩, s)
      | _, _ => (.error .InvalidRefreshTokenError, s)

/-- `get_current_user` (src/src/auth/security/utils.py): decode the bearer
access token (decode failures propagate unchanged), select the user whose
id column equals the decoded `user_id` claim (a missing claim compares as
SQL NULL and matches no row), raise `UserNotFoundException` when no row
matches, raise `UserAreLoggedOutException` when the user owns no refresh
row, otherwise return the user id. -/
def get_current_user (token : JWToken) (st : Settings) (now : Nat)
    (s : DBState) : Except AuthErr Nat :=
  match decode_access_token st token now with
  | .error e => .error e
  | .ok user_data =>
    let rows := match user_data.user_id with
      | none => []
      | some uid => s.users.filter (fun u => u.id == uid)
    match scalar_one_or_none rows with
    | .error e => .error e
    | .ok none => .error .UserNotFoundException
    | .ok (some auth_user) =>
      if (s.refresh_tokens.filter (fun r => r.user_id == auth_user.id)).isEmpty then
        .error .UserAreLoggedOutException
      else .ok auth_user.id

/-- Outcome at the transport boundary: a successful response, an
`HTTPException` raised by the route handler, or a domain exception the
handler did not catch, escaping raw to the framework. -/
inductive EndpointResult (α : Type) where
  | ok (value : α)
  | httpError (status_code : Nat) (detail : String)
  | unhandled (e : AuthErr)
  deriving DecidableEq, Repr

/-- The `/refresh` route handler (src/src/auth/auth_router.py `refresh`):
call `refresh_token` and translate `BaseUserException` instances to
HTTP 401; every other exception escapes the handler uncaught. -/
def refresh_endpoint (tok : JWToken) (st : Settings) (now : Nat)
    (commit_ok : Bool) (s : DBState) :
    EndpointResult RefreshTokenResponseSchema × DBState :=
  match refresh_token tok st now commit_ok s with
  | (.ok r, s1) => (.ok r, s1)
  | (.error e, s1) =>
    if e.isUserException then
      (.httpError 401 "Something went wrong during account operation", s1)
    else (.unhandled e, s1)

/-! Concrete fixtures used by witnesses and counterexamples. -/

/-- A concrete configuration: 60-minute access TTL, 7-day refresh TTL. -/
def settings0 : Settings := ⟨60, 7, "access-secret", "refresh-secret"⟩

/-- A registered account (id 1), password hashed with salt 5. -/
def user0 : UserModel := UserModel.create "user@example.com" "Passw0rd!" 5 1

/-- A stale refresh row of user 1 whose token expired at time 50. -/
def old_row1 : RefreshTokenModel :=
  ⟨10, ⟨"refresh-secret", ⟨some 1, some "user@example.com", 50⟩⟩, 50, 1⟩

/-- A second refresh row of user 1, signed with an outdated key. -/
def old_row2 : RefreshTokenModel :=
  ⟨11, ⟨"stale-key", ⟨some 1, some "user@example.com", 99999⟩⟩, 99999, 1⟩

/-- A store holding user 1 and two of its refresh rows. -/
def s0 : DBState := ⟨[user0], [old_row1, old_row2]⟩

/-- The access token `login_user` issues for user 1 at time 100 under
`settings0`. -/
def atok0 : JWToken := ⟨"access-secret", ⟨some 1, some "user@example.com", 160⟩⟩

/-- The refresh token `login_user` issues for user 1 at time 100 under
`settings0`. -/
def rtok0 : JWToken :=
  ⟨"refresh-secret", ⟨some 1, some "user@example.com", 10180⟩⟩

/-- The refresh row `login_user` inserts for user 1 at time 100 with row
id 7. -/
def new_row0 : RefreshTokenModel := ⟨7, rtok0, 10180, 1⟩

/-- The store after user 1 logs in at time 100 on `s0`. -/
def s1fix : DBState := ⟨[user0], [new_row0]⟩

/-! Helper lemmas about refresh-row filtering. -/

/-- Rows kept by the rotation delete never match the deleted owner. -/
theorem filter_rotate_self (l : List RefreshTokenModel) (i : Nat) :
    (l.filter (fun r => r.user_id != i)).filter (fun r => r.user_id == i) = [] := by
  rw [List.filter_eq_nil_iff]
  intro a ha hmem
  have h1 := (List.mem_filter.mp ha).2
  simp only [bne_iff_ne, ne_eq] at h1
  exact h1 (eq_of_beq hmem)

/-- After the rotation delete plus insert, the owner's rows are exactly the
inserted row. -/
theorem filter_rotate_insert (l : List RefreshTokenModel) (i : Nat)
    (t : RefreshTokenModel) (ht : t.user_id = i) :
    ((l.filter (fun r => r.user_id != i)) ++ [t]).filter
      (fun r => r.user_id == i) = [t] := by
  rw [List.filter_append, filter_rotate_self]
  simp [List.filter, ht]

/-- Deleting the unique row matching a token leaves no row matching it. -/
theorem filter_token_after_delete (l : List RefreshTokenModel) (tok : JWToken)
    (r : RefreshTokenModel) (hf : l.filter (fun x => x.token == tok) = [r]) :
    (l.filter (fun x => x.id != r.id)).filter (fun x => x.token == tok) = [] := by
  rw [List.filter_eq_nil_iff]
  intro a ha hmem
  have hal := List.mem_filter.mp ha
  have har : a ∈ l.filter (fun x => x.token == tok) :=
    List.mem_filter.mpr ⟨hal.1, hmem⟩
  rw [hf, List.mem_singleton] at har
  subst har
  simp at hal

/-! Claim theorems. -/

/-- C9: for every password p and salt, verifying p against the digest
produced by hashing p succeeds. -/
theorem verify_password_of_hash_password (p : String) (salt : Nat) :
    verify_password p (hash_password p salt) = true := by
  simp [verify_password, bcrypt_checkpw, hash_password, bcrypt_hashpw]

/-- C1: whenever `login_user` succeeds, the final store holds exactly one
refresh row for the logged-in account, namely the freshly inserted one,
regardless of how many rows (zero or more) the account owned before: the
in-call delete removes them all and exactly one insert follows. -/
theorem login_single_refresh_record (ld : LoginRequestSchema) (st : Settings)
    (now ntid : Nat) (ok : Bool) (s : DBState)
    (resp : LoginResponseSchema) (s1 : DBState)
    (h : login_user ld st now ntid ok s = (.ok resp, s1)) :
    ∃ u, get_user_by_email ld.email s = .ok (some u) ∧
      s1.refresh_tokens.filter (fun r => r.user_id == u.id) =
        [RefreshTokenModel.create st u.id
          (create_refresh_token st ⟨u.id, u.email⟩ now) now ntid] := by
  unfold login_user at h
  split at h
  · simp at h
  · simp at h
  · rename_i user heq
    split at h
    · split at h
      · rw [Prod.mk.injEq] at h
        refine ⟨user, heq, ?_⟩
        rw [← h.2]
        exact filter_rotate_insert s.refresh_tokens user.id _ rfl
      · simp at h
    · simp at h

/-- C1 witness: login of user 1 on a store holding two prior refresh rows
leaves exactly the new row. -/
theorem login_single_refresh_record_witness :
    ∃ u, get_user_by_email "user@example.com" s0 = .ok (some u) ∧
      s1fix.refresh_tokens.filter (fun r => r.user_id == u.id) =
        [RefreshTokenModel.create settings0 u.id
          (create_refresh_token settings0 ⟨u.id, u.email⟩ 100) 100 7] :=
  login_single_refresh_record ⟨"user@example.com", "Passw0rd!"⟩ settings0
    100 7 true s0 ⟨atok0, rtok0, "bearer"⟩ s1fix (by rfl)

/-- C2: a refresh presentation matching no stored row fails with
`InvalidRefreshTokenError` and leaves the store unchanged; a presentation
matching exactly one stored row whose codec validation fails deletes that
row and fails with `InvalidRefreshTokenError`, the row is absent from
storage afterwards, and a second identical call fails with the same error
without further change. -/
theorem refresh_invalid_token_handling (tok : JWToken) (st : Settings)
    (now : Nat) (s : DBState) :
    (s.refresh_tokens.filter (fun x => x.token == tok) = [] →
      refresh_token tok st now true s = (.error .InvalidRefreshTokenError, s)) ∧
    (∀ r e, s.refresh_tokens.filter (fun x => x.token == tok) = [r] →
      decode_refresh_token st tok now = .error e →
      refresh_token tok st now true s =
        (.error .InvalidRefreshTokenError,
          ⟨s.users, s.refresh_tokens.filter (fun x => x.id != r.id)⟩) ∧
      (DBState.mk s.users
          (s.refresh_tokens.filter (fun x => x.id != r.id))).refresh_tokens.filter
          (fun x => x.token == tok) = [] ∧
      refresh_token tok st now true
          ⟨s.users, s.refresh_tokens.filter (fun x => x.id != r.id)⟩ =
        (.error .InvalidRefreshTokenError,
          ⟨s.users, s.refresh_tokens.filter (fun x => x.id != r.id)⟩)) := by
  constructor
  · intro h
    unfold refresh_token
    rw [h]
    rfl
  · intro r e hf hdec
    have hgone := filter_token_after_delete s.refresh_tokens tok r hf
    refine ⟨?_, hgone, ?_⟩
    · unfold refresh_token
      rw [hf, hdec]
      rfl
    · unfold refresh_token
      dsimp only
      rw [hgone]
      rfl

/-- C2 witness: presenting the stored-but-expired token of row 10 deletes
the row, fails with `InvalidRefreshTokenError`, and the second identical
call fails the same way with the row absent. -/
theorem refresh_invalid_token_handling_witness :
    refresh_token old_row1.token settings0 100 true s0 =
      (.error .InvalidRefreshTokenError,
        ⟨s0.users, s0.refresh_tokens.filter (fun x => x.id != old_row1.id)⟩) ∧
    (DBState.mk s0.users
        (s0.refresh_tokens.filter (fun x => x.id != old_row1.id))).refresh_tokens.filter
        (fun x => x.token == old_row1.token) = [] ∧
    refresh_token old_row1.token settings0 100 true
        ⟨s0.users, s0.refresh_tokens.filter (fun x => x.id != old_row1.id)⟩ =
      (.error .InvalidRefreshTokenError,
        ⟨s0.users, s0.refresh_tokens.filter (fun x => x.id != old_row1.id)⟩) :=
  (refresh_invalid_token_handling old_row1.token settings0 100 s0).2
    old_row1 .TokenExpiredError (by rfl) (by rfl)

/-- C3: resolving the current user propagates codec failures unchanged;
with decoded claims naming an existing account it fails with
`UserAreLoggedOutException` when the account owns no refresh row and
returns the account id when it owns at least one; a decoded id matching no
account fails with `UserNotFoundException`. -/
theorem get_current_user_resolution (tok : JWToken) (st : Settings)
    (now : Nat) (s : DBState) :
    (∀ e, decode_access_token st tok now = .error e →
      get_current_user tok st now s = .error e) ∧
    (∀ p uid u, decode_access_token st tok now = .ok p →
      p.user_id = some uid →
      scalar_one_or_none (s.users.filter (fun v => v.id == uid)) = .ok (some u) →
      (s.refresh_tokens.filter (fun r => r.user_id == u.id) = [] →
        get_current_user tok st now s = .error .UserAreLoggedOutException) ∧
      (s.refresh_tokens.filter (fun r => r.user_id == u.id) ≠ [] →
        get_current_user tok st now s = .ok u.id)) ∧
    (∀ p uid, decode_access_token st tok now = .ok p →
      p.user_id = some uid →
      scalar_one_or_none (s.users.filter (fun v => v.id == uid)) = .ok none →
      get_current_user tok st now s = .error .UserNotFoundException) := by
  refine ⟨?_, ?_, ?_⟩
  · intro e hdec
    unfold get_current_user
    rw [hdec]
  · intro p uid u hdec huid hsel
    constructor
    · intro hempty
      unfold get_current_user
      rw [hdec]
      dsimp only
      rw [huid]
      dsimp only
      rw [hsel]
      dsimp only
      rw [hempty]
      rfl
    · intro hne
      obtain ⟨a, l, hl⟩ := List.exists_cons_of_ne_nil hne
      unfold get_current_user
      rw [hdec]
      dsimp only
      rw [huid]
      dsimp only
      rw [hsel]
      dsimp only
      rw [hl]
      rfl
  · intro p uid hdec huid hsel
    unfold get_current_user
    rw [hdec]
    dsimp only
    rw [huid]
    dsimp only
    rw [hsel]

/-- C3 witness: a valid access token for user 1, who owns two refresh rows,
resolves to user id 1. -/
theorem get_current_user_resolution_witness :
    get_current_user atok0 settings0 100 s0 = .ok user0.id :=
  ((get_current_user_resolution atok0 settings0 100 s0).2.1
    ⟨some 1, some "user@example.com", 160⟩ 1 user0 (by rfl) rfl (by rfl)).2
    (by decide)

/-- C4: a login whose email matches no account and a login whose email
matches an account but whose password fails verification raise the very
same exception (`UserNotFoundException`, the code's invalid-credentials
error), so the caller cannot distinguish the two causes. -/
theorem login_error_indistinguishable (ld : LoginRequestSchema)
    (st : Settings) (now ntid : Nat) (ok : Bool) (s : DBState) :
    (get_user_by_email ld.email s = .ok none →
      login_user ld st now ntid ok s = (.error .UserNotFoundException, s)) ∧
    (∀ u, get_user_by_email ld.email s = .ok (some u) →
      u.check_password ld.password = false →
      login_user ld st now ntid ok s = (.error .UserNotFoundException, s)) := by
  constructor
  · intro h
    unfold login_user
    rw [h]
  · intro u h hpw
    unfold login_user
    rw [h]
    dsimp only
    rw [hpw]
    simp

/-- C4 witness: unknown email and wrong password produce the identical
error on the same store. -/
theorem login_error_indistinguishable_witness :
    login_user ⟨"nobody@example.com", "Passw0rd!"⟩ settings0 100 7 true s0 =
      (.error .UserNotFoundException, s0) ∧
    login_user ⟨"user@example.com", "wrong"⟩ settings0 100 7 true s0 =
      (.error .UserNotFoundException, s0) :=
  ⟨(login_error_indistinguishable ⟨"nobody@example.com", "Passw0rd!"⟩
      settings0 100 7 true s0).1 (by rfl),
   (login_error_indistinguishable ⟨"user@example.com", "wrong"⟩
      settings0 100 7 true s0).2 user0 (by rfl) (by rfl)⟩

/-- C5: when the credentials verify but the commit persisting the new
refresh row fails, login raises `SessionExpiredError` (the session
establishment failure) and the rollback restores the pre-call store
exactly: the in-transaction delete is undone and nothing is inserted. -/
theorem login_commit_failure_rolls_back (ld : LoginRequestSchema)
    (st : Settings) (now ntid : Nat) (s : DBState) (u : UserModel)
    (hfind : get_user_by_email ld.email s = .ok (some u))
    (hpw : u.check_password ld.password = true) :
    login_user ld st now ntid false s = (.error .SessionExpiredError, s) := by
  unfold login_user
  rw [hfind]
  dsimp only
  rw [hpw]
  simp

/-- C5 witness: a correct login for user 1 with a failing commit yields the
session error and the untouched store. -/
theorem login_commit_failure_rolls_back_witness :
    login_user ⟨"user@example.com", "Passw0rd!"⟩ settings0 100 7 false s0 =
      (.error .SessionExpiredError, s0) :=
  login_commit_failure_rolls_back ⟨"user@example.com", "Passw0rd!"⟩
    settings0 100 7 s0 user0 (by rfl) (by rfl)

/-- C10: an access token that is validly signed and unexpired but whose
claims lack the `user_id` field does not raise `InvalidTokenError`: the
missing identifier flows into the account lookup, which matches no row, so
resolution fails with `UserNotFoundException`. -/
theorem get_current_user_missing_user_id_claim (tok : JWToken)
    (st : Settings) (now : Nat) (s : DBState)
    (hkey : tok.key = st.SECRET_KEY_ACCESS)
    (hexp : ¬ tok.payload.exp < now)
    (hmiss : tok.payload.user_id = none) :
    get_current_user tok st now s = .error .UserNotFoundException := by
  have hdec : decode_access_token st tok now = .ok tok.payload := by
    unfold decode_access_token jwt_decode
    rw [if_pos hkey, if_neg hexp]
  unfold get_current_user
  rw [hdec]
  dsimp only
  rw [hmiss]
  rfl

/-- C10 witness: a fresh access token carrying no `user_id` claim resolves
to `UserNotFoundException` on a populated store. -/
theorem get_current_user_missing_user_id_claim_witness :
    get_current_user ⟨"access-secret", ⟨none, some "user@example.com", 160⟩⟩
      settings0 100 s0 = .error .UserNotFoundException :=
  get_current_user_missing_user_id_claim
    ⟨"access-secret", ⟨none, some "user@example.com", 160⟩⟩
    settings0 100 s0 rfl (by decide) rfl

/-- C6 counterexample: registering "User@example.com" stores the account
under the lowercased "user@example.com", yet a login presenting
"User@example.com" — the registered email itself, differing from the
stored one only in letter case — with the correct password fails with the
invalid-credentials error instead of succeeding as the claim states. -/
theorem login_case_variant_fails_cex :
    UserCreateSchema.parse "User@example.com" "Passw0rd!" =
      .ok ⟨"user@example.com", "Passw0rd!"⟩ ∧
    create_new_user ⟨"user@example.com", "Passw0rd!"⟩ 5 1 true ⟨[], []⟩ =
      (.ok ⟨1, "user@example.com"⟩, ⟨[user0], []⟩) ∧
    login_user ⟨"User@example.com", "Passw0rd!"⟩ settings0 100 7 true
        ⟨[user0], []⟩ =
      (.error .UserNotFoundException, ⟨[user0], []⟩) :=
  ⟨rfl, rfl, rfl⟩

/-- C6 amended: registration lowercases the email before storing it, but
login performs an exact case-sensitive lookup on the presented string with
no normalization: when no stored account carries exactly the presented
email the login fails with the invalid-credentials error, and when exactly
one does and the password verifies the login succeeds. -/
theorem login_email_exact_lookup (e p : String) (uc : UserCreateSchema)
    (ld : LoginRequestSchema) (st : Settings) (now ntid : Nat) (s : DBState) :
    (UserCreateSchema.parse e p = .ok uc → uc.email = str_lower e) ∧
    (s.users.filter (fun v => v.email == ld.email) = [] →
      login_user ld st now ntid true s = (.error .UserNotFoundException, s)) ∧
    (∀ u, s.users.filter (fun v => v.email == ld.email) = [u] →
      u.check_password ld.password = true →
      ∃ resp s1, login_user ld st now ntid true s = (.ok resp, s1)) := by
  refine ⟨?_, ?_, ?_⟩
  · intro h
    unfold UserCreateSchema.parse validate_corporate_email at h
    split at h
    · simp at h
    · rename_i e2 heq
      split at heq
      · simp at heq
      · cases heq
        cases h
        rfl
  · intro h
    unfold login_user get_user_by_email
    rw [h]
    rfl
  · intro u hu hpw
    unfold login_user get_user_by_email
    rw [hu]
    dsimp only [scalar_one_or_none]
    rw [hpw]
    exact ⟨_, _, rfl⟩

/-- C6 amended witness: the parse of "User@example.com" lowercases, and a
login presenting exactly the stored lowercased email succeeds. -/
theorem login_email_exact_lookup_witness :
    (⟨"user@example.com", "Passw0rd!"⟩ : UserCreateSchema).email =
      str_lower "User@example.com" ∧
    ∃ resp s1,
      login_user ⟨"user@example.com", "Passw0rd!"⟩ settings0 100 7 true
        ⟨[user0], []⟩ = (.ok resp, s1) :=
  ⟨(login_email_exact_lookup "User@example.com" "Passw0rd!"
      ⟨"user@example.com", "Passw0rd!"⟩ ⟨"user@example.com", "Passw0rd!"⟩
      settings0 100 7 ⟨[user0], []⟩).1 (by rfl),
   (login_email_exact_lookup "User@example.com" "Passw0rd!"
      ⟨"user@example.com", "Passw0rd!"⟩ ⟨"user@example.com", "Passw0rd!"⟩
      settings0 100 7 ⟨[user0], []⟩).2.2 user0 (by rfl) (by rfl)⟩

/-- C7: evaluation at the failing input: a refresh whose token is absent
from storage raises `InvalidRefreshTokenError`, which is not a
`BaseUserException`, so the route handler's sole except clause does not
catch it and the error escapes the boundary raw (no HTTP 401). -/
theorem refresh_endpoint_unhandled_error :
    refresh_endpoint rtok0 settings0 100 true ⟨[user0], []⟩ =
      (.unhandled .InvalidRefreshTokenError, ⟨[user0], []⟩) ∧
    AuthErr.InvalidRefreshTokenError.isUserException = false ∧
    AuthErr.InvalidRefreshTokenError.isSecurityException = true :=
  ⟨rfl, rfl, rfl⟩

/-- C8 counterexample: a storage failure during logout is rolled back but
re-raised raw, and a storage failure during refresh's stale-row delete is
not handled at all: in both cases the caller receives the bare
`SQLAlchemyError`, which is neither a user-level nor a security-level
domain error, contradicting the claim that every storage-touching
operation re-raises storage exceptions as domain-level errors. -/
theorem storage_error_leaks_raw_cex :
    logout_user 1 false s0 = (.error .SQLAlchemyError, s0) ∧
    refresh_token old_row1.token settings0 100 false s0 =
      (.error .SQLAlchemyError, s0) ∧
    AuthErr.SQLAlchemyError.isUserException = false ∧
    AuthErr.SQLAlchemyError.isSecurityException = false :=
  ⟨rfl, rfl, rfl, rfl⟩

/-- C8 amended: register and login catch storage failures, roll the
transaction back and re-raise domain errors (`UserCreateException`,
`SessionExpiredError`); logout catches and rolls back but re-raises the
raw storage exception unchanged; refresh has no storage-exception handler,
so a storage failure during the commit of its stale-row delete propagates
raw as well. -/
theorem storage_failure_translation (uc : UserCreateSchema)
    (salt nid : Nat) (ld : LoginRequestSchema) (rtok : JWToken)
    (st : Settings) (now ntid uid : Nat) (s : DBState) (u : UserModel)
    (hnew : get_user_by_email uc.email s = .ok none)
    (hfind : get_user_by_email ld.email s = .ok (some u))
    (hpw : u.check_password ld.password = true) :
    create_new_user uc salt nid false s = (.error .UserCreateException, s) ∧
    login_user ld st now ntid false s = (.error .SessionExpiredError, s) ∧
    logout_user uid false s = (.error .SQLAlchemyError, s) ∧
    (∀ r e2, s.refresh_tokens.filter (fun x => x.token == rtok) = [r] →
      decode_refresh_token st rtok now = .error e2 →
      refresh_token rtok st now false s = (.error .SQLAlchemyError, s)) := by
  refine ⟨?_, ?_, rfl, ?_⟩
  · unfold create_new_user
    rw [hnew]
    rfl
  · unfold login_user
    rw [hfind]
    dsimp only
    rw [hpw]
    simp
  · intro r e2 hf hdec
    unfold refresh_token
    rw [hf, hdec]
    rfl

/-- C8 amended witness: on the populated store, a failing commit during
registration, login, logout and the refresh of a stored expired token
produces respectively the two domain errors and twice the raw storage
exception, each with the store rolled back or untouched. -/
theorem storage_failure_translation_witness :
    create_new_user ⟨"new@example.com", "Pw1!"⟩ 6 2 false s0 =
      (.error .UserCreateException, s0) ∧
    login_user ⟨"user@example.com", "Passw0rd!"⟩ settings0 100 7 false s0 =
      (.error .SessionExpiredError, s0) ∧
    logout_user 1 false s0 = (.error .SQLAlchemyError, s0) ∧
    refresh_token old_row1.token settings0 100 false s0 =
      (.error .SQLAlchemyError, s0) :=
  have h := storage_failure_translation ⟨"new@example.com", "Pw1!"⟩ 6 2
    ⟨"user@example.com", "Passw0rd!"⟩ old_row1.token settings0 100 7 1 s0
    user0 (by rfl) (by rfl) (by rfl)
  ⟨h.1, h.2.1, h.2.2.1, h.2.2.2 old_row1 .TokenExpiredError (by rfl) (by rfl)⟩
